import Mathlib

/-!
Verification of the command-orchestration wizards in `scripts/cli-tools/`
(`pull_metadata.py` and `start_development.py`).

The Python code is shallowly embedded: strings are Lean `String`
(operated on through their `List Char` data by structural recursion so
everything reduces in the kernel), file-system existence and subprocess
outcomes are supplied by an explicit `World` oracle, and every effectful
Python function becomes a function in a state monad `M` that records a
trace of observable events (log messages, launched subprocesses, printed
output) and models `sys.exit` by short-circuiting with an exit code.

Modelling choices, all noted in place: the ASCII fragment of Python
string semantics (`.strip()`, `.lower()`, `.isdigit()`); `Path` values
are plain strings joined with a slash and `resolve()` is the identity;
the shell-quoted command line shown in log messages is a plain
space-join; interactive `input()` lines are passed as explicit string
arguments to the function that reads them.
-/

namespace CliTools

/-! ## Python string primitives (ASCII model) -/

/-- The whitespace characters removed by Python `str.strip()` (ASCII fragment). -/
def pyIsSpace (c : Char) : Bool :=
  c = ' ' || c = '\t' || c = '\n' || c = '\r' || c = '\x0b' || c = '\x0c'

/-- Remove leading and trailing whitespace from a character list (`str.strip()`). -/
def stripList (l : List Char) : List Char :=
  ((l.dropWhile pyIsSpace).reverse.dropWhile pyIsSpace).reverse

/-- `str.strip()`. -/
def pyStrip (s : String) : String := String.mk (stripList s.data)

/-- ASCII `str.lower()` on one character. -/
def lowerChar (c : Char) : Char :=
  if 65 ≤ c.toNat ∧ c.toNat ≤ 90 then Char.ofNat (c.toNat + 32) else c

/-- `.replace(' ', '-')` on one character. -/
def spaceToHyphen (c : Char) : Char := if c = ' ' then '-' else c

/-- `str.isdigit()` (ASCII fragment): nonempty and all decimal digits. -/
def pyIsDigit (s : String) : Bool :=
  !s.data.isEmpty && s.data.all (fun c => '0' ≤ c && c ≤ '9')

/-- `int(...)` on a digit string. -/
def pyInt (s : String) : Nat :=
  s.data.foldl (fun n c => 10 * n + (c.toNat - 48)) 0

/-- Split a character list at a separator character (`str.split(sep)`,
single-character separator; `"".split(sep) = [""]`). -/
def splitOnChar (sep : Char) : List Char → List (List Char)
  | [] => [[]]
  | c :: cs =>
    match splitOnChar sep cs with
    | [] => if c = sep then [[], []] else [[c]]
    | h :: t => if c = sep then [] :: h :: t else (c :: h) :: t

/-- `str.split(sep)` for a single-character separator. -/
def pySplit (sep : Char) (s : String) : List String :=
  (splitOnChar sep s.data).map String.mk

/-- Whether `pat` is a prefix of the second list (boolean, structural). -/
def hasPrefixL : List Char → List Char → Bool
  | [], _ => true
  | _ :: _, [] => false
  | p :: ps, c :: cs => p = c && hasPrefixL ps cs

/-- Whether `pat` occurs as a contiguous substring of the second list. -/
def hasInfixL (pat : List Char) : List Char → Bool
  | [] => hasPrefixL pat []
  | c :: cs => hasPrefixL pat (c :: cs) || hasInfixL pat cs

/-- Python `pat in hay` on strings (substring containment). -/
def containsSub (hay pat : String) : Bool := hasInfixL pat.data hay.data

/-- Whether `suf` is a suffix of `s`. -/
def strEndsWith (s suf : String) : Bool :=
  hasPrefixL suf.data.reverse s.data.reverse

/-! ## Effect model

A `World` answers the two kinds of questions the wizards ask their
environment: the outcome of the `n`-th subprocess launched so far
(`subprocess.run`), and whether a path exists on the file system.
A `PState` carries the observable trace and the subprocess counter.
`Res` distinguishes normal return from `sys.exit code`; the monad `M`
threads the state and short-circuits on exit.
-/

/-- Outcome of one `subprocess.run` call: exit status, and the merged
stdout/stderr text (meaningful in capture mode). -/
structure SubprocResult where
  exitCode : Nat
  output : String
  deriving Repr, DecidableEq

/-- Observable events of a wizard run. -/
inductive Event where
  | invoked (tokens : List String) (cwd : Option String) (passthrough : Bool)
  | log (level : String) (message : String)
  | printed (text : String)
  | menuShown (options : List String)
  | madeDir (path : String)
  deriving Repr, DecidableEq

/-- The environment oracle. -/
structure World where
  proc : Nat → SubprocResult
  fs : String → Bool

/-- Program state: event trace so far, number of subprocesses launched. -/
structure PState where
  trace : List Event
  calls : Nat
  deriving Repr

/-- Normal return or `sys.exit code`. -/
inductive Res (α : Type) where
  | ok (a : α)
  | exit (code : Nat)
  deriving Repr, DecidableEq

/-- The wizard monad. -/
def M (α : Type) : Type := World → PState → Res α × PState

/-- Monadic return for `M`. -/
def M.pure {α : Type} (a : α) : M α := fun _ s => (Res.ok a, s)

/-- Monadic bind for `M`: `sys.exit` short-circuits. -/
def M.bind {α β : Type} (x : M α) (f : α → M β) : M β := fun w s =>
  match x w s with
  | (Res.ok a, s1) => f a w s1
  | (Res.exit c, s1) => (Res.exit c, s1)

instance monadM : Monad M where
  pure := M.pure
  bind := M.bind

/-- Append one event to the trace. -/
def emit (e : Event) : M Unit := fun _ s =>
  (Res.ok (), { s with trace := s.trace ++ [e] })

/-- `logger.status`. -/
def logStatus (m : String) : M Unit := emit (Event.log "STATUS" m)

/-- `logger.info`. -/
def logInfo (m : String) : M Unit := emit (Event.log "INFO" m)

/-- `logger.step`. -/
def logStep (m : String) : M Unit := emit (Event.log "STEP" m)

/-- `logger.success`. -/
def logSuccess (m : String) : M Unit := emit (Event.log "SUCCESS" m)

/-- `logger.warning`. -/
def logWarning (m : String) : M Unit := emit (Event.log "WARNING" m)

/-- `logger.error`. -/
def logError (m : String) : M Unit := emit (Event.log "ERROR" m)

/-- `logger.header`. -/
def logHeader (m : String) : M Unit := emit (Event.log "HEADER" m)

/-- `print(...)`. -/
def printLine (t : String) : M Unit := emit (Event.printed t)

/-- `sys.exit(c)`. -/
def sysExit {α : Type} (c : Nat) : M α := fun _ s => (Res.exit c, s)

/-- `Path(...).exists()`, answered by the world's file-system oracle. -/
def fsExists (p : String) : M Bool := fun w s => (Res.ok (w.fs p), s)

/-- The command line shown in log messages (plain space-join; the
`shlex.quote` decoration used by `pull_metadata.run` is abstracted away). -/
def joinTokens : List String → String
  | [] => ""
  | [t] => t
  | t :: rest => t ++ " " ++ joinTokens rest

/-- The trace events produced by one process-runner call with outcome `r`:
announcement, the subprocess itself, then success log, or error log
followed by the captured output when it is nonempty (capture mode only —
in passthrough mode `CalledProcessError.stdout` is `None`). -/
def runDelta (cmd : List String) (cwd : Option String) (passthrough : Bool)
    (r : SubprocResult) : List Event :=
  [Event.log "STATUS" ("$ " ++ joinTokens cmd), Event.invoked cmd cwd passthrough] ++
    (if r.exitCode = 0 then [Event.log "SUCCESS" (joinTokens cmd)]
     else [Event.log "ERROR" ("FAILED: " ++ joinTokens cmd)] ++
       (if passthrough = false ∧ r.output ≠ "" then [Event.printed r.output] else []))

/-- `run` from `pull_metadata.py`: execute a command; return `none` in
passthrough mode and the captured output in capture mode; on a non-zero
exit status, log the failure, print captured output if any, and
`sys.exit(1)`. -/
def run (cmd : List String) (cwd : Option String) (passthrough : Bool) :
    M (Option String) := fun w s =>
  let r := w.proc s.calls
  (if r.exitCode = 0 then Res.ok (if passthrough then none else some r.output)
   else Res.exit 1,
   { trace := s.trace ++ runDelta cmd cwd passthrough r, calls := s.calls + 1 })

/-- `run_subprocess` from `start_development.py`: same contract as `run`
(the two differ only in how the announced command line is quoted). -/
def run_subprocess (cmd_list : List String) (passthrough : Bool)
    (cwd : Option String) : M (Option String) := fun w s =>
  let r := w.proc s.calls
  (if r.exitCode = 0 then Res.ok (if passthrough then none else some r.output)
   else Res.exit 1,
   { trace := s.trace ++ runDelta cmd_list cwd passthrough r, calls := s.calls + 1 })

/-! ## `pull_metadata.py`: input helpers and pull handlers

Interactive `input()` lines are passed to each function as explicit
string arguments (one per prompt the Python function reads).
-/

/-- `ask`: trimmed input, or the default when the trimmed input is blank. -/
def ask (rawInput : String) (dflt : Option String) : String :=
  let val := pyStrip rawInput
  if val = "" then dflt.getD "" else val

/-- `ask_bool`: `y`/`yes` (case-insensitive via lower) is true, blank is
the default, everything else false. -/
def ask_bool (rawInput : String) (dflt : Bool) : Bool :=
  let val := String.mk ((stripList rawInput.data).map lowerChar)
  if val = "" then dflt else (val = "y" || val = "yes")

/-- The two warning kinds `choose_many` can emit for one token. -/
inductive Warn where
  | notNumber (token : String)
  | outOfRange (token : String)
  deriving Repr, DecidableEq

/-- Single-quote character, used in warning texts. -/
def sq : String := "\x27"

/-- The warning messages of `choose_many`. -/
def renderWarn : Warn → String
  | Warn.notNumber t => "Ignoring " ++ sq ++ t ++ sq ++ " (not a number)."
  | Warn.outOfRange t => "Ignoring " ++ sq ++ t ++ sq ++ " (out of range)."

/-- One iteration of the token loop in `choose_many`: skip blank tokens,
warn on non-numeric tokens, pick the 1-based option for in-range indices,
warn on out-of-range indices. -/
def chooseAcc (options : List String) (acc : List String × List Warn)
    (token0 : String) : List String × List Warn :=
  let token := pyStrip token0
  if token = "" then acc
  else if pyIsDigit token = false then (acc.1, acc.2 ++ [Warn.notNumber token])
  else
    let idx := pyInt token
    if 1 ≤ idx ∧ idx ≤ options.length then (acc.1 ++ [options.getD (idx - 1) ""], acc.2)
    else (acc.1, acc.2 ++ [Warn.outOfRange token])

/-- `choose_many`, pure core: given the option list and the raw input
line, the chosen strings and the warnings, in input order. Blank input
cancels with an empty selection. -/
def choose_many (options : List String) (rawInput : String) :
    List String × List Warn :=
  let raw := pyStrip rawInput
  if raw = "" then ([], [])
  else (pySplit ',' raw).foldl (chooseAcc options) ([], [])

/-- Emit the warnings of a `choose_many` call to the log. -/
def emitWarns : List Warn → M Unit
  | [] => M.pure ()
  | wn :: rest => M.bind (logWarning (renderWarn wn)) (fun _ => emitWarns rest)

/-- `choose_many`, effectful wrapper: menu rendering and warnings on the
trace, returning the selection. -/
def choose_many_m (prompt : String) (options : List String) (rawInput : String) :
    M (List String) := do
  printLine ""
  logInfo prompt
  emit (Event.menuShown options)
  printLine ""
  let pw := choose_many options rawInput
  emitWarns pw.2
  pure pw.1

/-- `CURATED_TYPES`: the fixed catalog of metadata types. -/
def CURATED_TYPES : List String :=
  ["ApexClass", "ApexTrigger", "ApexPage", "ApexComponent",
   "LightningComponentBundle", "AuraDefinitionBundle", "LightningMessageChannel",
   "CustomObject", "CustomField", "Layout", "RecordType", "Flow",
   "FlowDefinition", "ValidationRule", "PermissionSet", "PermissionSetGroup",
   "Profile", "FlexiPage", "GlobalValueSet", "StaticResource",
   "CustomApplication", "CustomTab", "RemoteSiteSetting", "NamedCredential",
   "ConnectedApp", "EmailTemplate", "Report", "Dashboard", "ReportType",
   "Translations"]

/-- The fixed leading tokens of every retrieval command. -/
def retrieveStart (target_org : String) : List String :=
  ["sf", "project", "retrieve", "start", "--target-org", target_org]

/-- The optional trailing `--ignore-conflicts` token. -/
def conflictsSuffix (ignore_conflicts : Bool) : List String :=
  if ignore_conflicts then ["--ignore-conflicts"] else []

/-- One `--metadata <type>:*` flag pair per selected type. -/
def metadataFlags (types : List String) : List String :=
  types.flatMap (fun t => ["--metadata", t ++ ":*"])

/-- One `--source-dir <path>` flag pair per given path. -/
def sourceDirFlags (paths : List String) : List String :=
  paths.flatMap (fun p => ["--source-dir", p])

/-- Comma-split, strip each entry, drop blanks (the list comprehensions
in `pull_by_types` and `pull_by_paths`). -/
def splitCommaStrip (raw : String) : List String :=
  ((pySplit ',' raw).map pyStrip).filter (fun t => t ≠ "")

/-- `Path` join; `resolve()` is modelled as the identity. -/
def joinPath (root rel : String) : String := root ++ "/" ++ rel

/-- `pull_everything`: retrieve all source-tracked changes. -/
def pull_everything (project_root target_org : String) (ignore_conflicts : Bool) :
    M Unit := do
  let _ ← run (retrieveStart target_org ++ conflictsSuffix ignore_conflicts)
    (some project_root) true
  pure ()

/-- `pull_by_types`: catalog multi-select plus free-form extra types; a
warning and no command when the combined selection is empty. -/
def pull_by_types (project_root target_org : String) (ignore_conflicts : Bool)
    (selRaw extraRaw : String) : M Unit := do
  let picks ← choose_many_m "Select metadata types to retrieve:" CURATED_TYPES selRaw
  printLine ""
  let extra := pyStrip (ask extraRaw none)
  let types := picks ++ (if extra ≠ "" then splitCommaStrip extra else [])
  if types = [] then logWarning "No types selected. Nothing to do."
  else do
    let _ ← run (retrieveStart target_org ++ metadataFlags types ++
      conflictsSuffix ignore_conflicts) (some project_root) true
    pure ()

/-- `pull_by_paths`: comma-separated project paths; a warning and no
command when none are given. -/
def pull_by_paths (project_root target_org : String) (ignore_conflicts : Bool)
    (pathsRaw : String) : M Unit := do
  logInfo "Enter one or more project paths (relative to repo root),"
  logInfo "for example:"
  logInfo "  force-app/main/default/classes"
  logInfo "  force-app/main/default/objects/Account"
  logInfo "Separate multiple entries with commas."
  printLine ""
  let raw := pyStrip pathsRaw
  if raw = "" then logWarning "No paths provided. Nothing to do."
  else do
    let paths := splitCommaStrip raw
    let _ ← run (retrieveStart target_org ++ sourceDirFlags paths ++
      conflictsSuffix ignore_conflicts) (some project_root) true
    pure ()

/-- The retrieval tail shared by both manifest branches. -/
def manifestRetrieve (project_root target_org : String) (ignore_conflicts : Bool)
    (manifest_path : String) : M Unit := do
  let _ ← run (retrieveStart target_org ++ ["--manifest", manifest_path] ++
    conflictsSuffix ignore_conflicts) (some project_root) true
  pure ()

/-- `pull_by_manifest`: choice `1` uses an existing `package.xml`
(fatal when the resolved path does not exist), choice `2` generates one
from the org first (fatal when the expected file is absent afterwards);
any other choice aborts with a warning. -/
def pull_by_manifest (project_root target_org : String) (ignore_conflicts : Bool)
    (choiceRaw mpRaw : String) : M Unit := do
  logInfo "Choose one:"
  printLine "  1) Use existing package.xml"
  printLine "  2) Generate package.xml from org, then retrieve"
  let choice := pyStrip choiceRaw
  if choice = "1" then do
    let default_manifest := joinPath project_root "manifest/package.xml"
    let dfltEx ← fsExists default_manifest
    let mp := ask mpRaw (some (if dfltEx then default_manifest else "manifest/package.xml"))
    let manifest_path := joinPath project_root mp
    let ex ← fsExists manifest_path
    if ex = false then do
      logError ("package.xml not found at: " ++ manifest_path)
      sysExit 1
    else manifestRetrieve project_root target_org ignore_conflicts manifest_path
  else if choice = "2" then do
    let out_dir := joinPath project_root "manifest"
    emit (Event.madeDir out_dir)
    let _ ← run ["sf", "project", "generate", "manifest", "--from-org", target_org,
      "--output-dir", out_dir] (some project_root) true
    let manifest_path := joinPath out_dir "package.xml"
    let ex ← fsExists manifest_path
    if ex = false then do
      logError "Failed to generate manifest/package.xml"
      sysExit 1
    else manifestRetrieve project_root target_org ignore_conflicts manifest_path
  else logWarning "Invalid choice; aborting manifest flow."

/-- `reset_tracking`: gated by a confirmation prompt defaulting to no. -/
def reset_tracking (project_root target_org : String) (confirmRaw : String) :
    M Unit := do
  logWarning "This will reset local source tracking. Useful when the workspace and org drift."
  if ask_bool confirmRaw false = false then logInfo "Canceled."
  else do
    let _ ← run ["sf", "project", "reset", "tracking", "--target-org", target_org,
      "--no-prompt"] (some project_root) true
    pure ()

/-! ## `start_development.py` -/

/-- Repository root (filesystem location abstracted to a fixed string). -/
def REPO_ROOT : String := "repo"

/-- `SFDX_PROJECT_DIR`. -/
def SFDX_PROJECT_DIR : String := REPO_ROOT

/-- `SCRATCH_DEF`. -/
def SCRATCH_DEF : String := joinPath SFDX_PROJECT_DIR "config/project-scratch-def.json"

/-- `SOURCE_DIR`. -/
def SOURCE_DIR : String := joinPath SFDX_PROJECT_DIR "force-app"

/-- `norm_env` from `start_development.py`:
`name.strip().lower().replace(' ', '-')`. -/
def norm_env (name : String) : String :=
  String.mk (((stripList name.data).map lowerChar).map spaceToHyphen)

/-- `git_prepare_branch`: update `main`, then create a fresh branch from
it, or in review mode delete any pre-existing local branch of the target
name and check it out tracking its remote. -/
def git_prepare_branch (environment_name : String) (review_mode : Bool) : M Unit := do
  logStep "GITHUB"
  logStatus "Checking out main branch and getting latest update from Github ..."
  let _ ← run_subprocess ["git", "checkout", "main"] true none
  let _ ← run_subprocess ["git", "pull", "origin", "main"] true none
  if review_mode = false then do
    logStatus "Create and push feature branch from main"
    logStatus "Creating new development branch ..."
    let _ ← run_subprocess ["git", "checkout", "-b", environment_name, "main"] true none
    pure ()
  else do
    logStatus "--- Review mode ---"
    logStatus "Checking out development branch ..."
    let existing ← run_subprocess ["git", "branch", "--list", environment_name] false none
    let existing_git_branch := existing.getD ""
    if containsSub existing_git_branch environment_name then do
      logStatus "Deleting local branch ..."
      let _ ← run_subprocess ["git", "branch", "-D", environment_name] true none
      pure ()
    else pure ()
    let _ ← run_subprocess ["git", "checkout", "-b", environment_name,
      "origin/" ++ environment_name] true none
    pure ()

/-- `check_sfcli_exists`: version query in capture mode. -/
def check_sfcli_exists : M Unit := do
  logStep "CHECK SF CLI"
  logStatus "Validating SFDC Binary is available ..."
  let _ ← run_subprocess ["sf", "--version"] false none
  pure ()

/-- `login_devhub`: list orgs; log in when forced or when the `DevHub`
alias is absent from the listing; re-list and die when it is still absent. -/
def login_devhub (devhub_url : String) (force_auth : Bool) : M Unit := do
  logStep "CHECK SFDX LOGIN STATUS"
  logStatus "Checking SFDX Devhub login status ..."
  logStatus "Retrieving list of Salesforce Orgs ..."
  logStep "AUTHORIZING DEV HUB"
  let orgs0 ← run_subprocess ["sf", "org", "list"] false none
  let orgs := orgs0.getD ""
  if force_auth || !containsSub orgs "DevHub" then do
    logStatus "Logging into Dev Hub ..."
    let _ ← run_subprocess ["sf", "org", "login", "web", "--alias", "DevHub",
      "--set-default-dev-hub", "--instance-url", devhub_url] true none
    pure ()
  else logStatus "Using existing Dev Hub alias DevHub."
  let orgs1 ← run_subprocess ["sf", "org", "list"] false none
  let orgs2 := orgs1.getD ""
  if containsSub orgs2 "DevHub" = false then do
    logError "Devhub alias not found after login"
    sysExit 1
  else pure ()

/-- `create_scratch_org`: require the scratch definition file, derive the
lifetime from the mode, optionally request the preview release, create
the org aliased to `environment_name`. -/
def create_scratch_org (environment_name : String) (review_mode preview_mode : Bool) :
    M Unit := do
  logStep "CREATE SCRATCH ORG"
  logStatus "Attempting to deploy new Scratch Org..."
  let ex ← fsExists SCRATCH_DEF
  if ex = false then do
    logError ("Scratch definition not found: " ++ SCRATCH_DEF)
    sysExit 1
  else do
    let duration_in_days := if review_mode then "7" else "30"
    let cmd := ["sf", "org", "create", "scratch", "--definition-file", SCRATCH_DEF,
      "--alias", environment_name, "--duration-days", duration_in_days,
      "--set-default"] ++ (if preview_mode then ["--release", "Preview"] else [])
    let _ ← run_subprocess cmd true none
    pure ()

/-- `deploy_source_metadata`: require the project directory, deploy
`force-app` into the org. -/
def deploy_source_metadata (environment_name : String) : M Unit := do
  logStep "DEPLOY SOURCE"
  let ex ← fsExists SFDX_PROJECT_DIR
  if ex = false then do
    logError ("Project directory not found: " ++ SFDX_PROJECT_DIR)
    sysExit 1
  else do
    logStatus "Deploying force-app to scratch org ..."
    let _ ← run_subprocess ["sf", "project", "deploy", "start", "--target-org",
      environment_name, "--source-dir", SOURCE_DIR] true (some SFDX_PROJECT_DIR)
    pure ()

/-- `open_scratch_org`. -/
def open_scratch_org (environment_name : String) (review_mode : Bool) : M Unit := do
  logStep "OPEN ORG"
  logStatus "Opening the scratch org in your browser ..."
  let _ ← run_subprocess ["sf", "org", "open", "--target-org", environment_name] true none
  pure ()

/-- The branch name `main` passes to `git_prepare_branch`: the normalized
environment name, without any mode suffix. -/
def main_env (environment : String) : String := norm_env environment

/-- The alias `main` passes to `create_scratch_org`,
`deploy_source_metadata` and `open_scratch_org`: the normalized name with
`-review` appended in review mode. -/
def main_scratch_alias (environment : String) (review : Bool) : String :=
  if review then main_env environment ++ "-review" else main_env environment

/-- `main` of `start_development.py`: the six-stage sequencer.
Command-line arguments appear as explicit parameters. -/
def main (environment : String) (review : Bool) (devhub_url : String)
    (force_devhub_connection : Bool) (preview : Bool) : M Unit := do
  logHeader "Scratch Org Script"
  logStatus ("Environment (raw): " ++ environment)
  logStatus ("Normalized alias: " ++ main_scratch_alias environment review)
  git_prepare_branch (main_env environment) review
  logSuccess "Git branch ready."
  check_sfcli_exists
  login_devhub devhub_url force_devhub_connection
  logSuccess "Dev Hub ready."
  create_scratch_org (main_scratch_alias environment review) review preview
  logSuccess "Scratch org created."
  deploy_source_metadata (main_scratch_alias environment review)
  logSuccess "Source deployed."
  open_scratch_org (main_scratch_alias environment review) review
  logSuccess "All done. Happy building!"

/-! ## Observation helpers on traces -/

/-- The token lists of all subprocesses launched in a trace. -/
def invokedCmds (tr : List Event) : List (List String) :=
  tr.filterMap (fun e => match e with
    | Event.invoked toks _ _ => some toks
    | _ => none)

/-- Whether a command is the scratch-org creation command. -/
def isCreateScratch (toks : List String) : Bool :=
  toks.take 4 = ["sf", "org", "create", "scratch"]

/-- Whether a command is a metadata-retrieval command. -/
def isRetrieveCmd (toks : List String) : Bool :=
  toks.take 4 = ["sf", "project", "retrieve", "start"]

/-- All retrieval commands launched in a trace. -/
def retrieveCmds (tr : List Event) : List (List String) :=
  (invokedCmds tr).filter isRetrieveCmd

/-- The number of warnings logged in a trace. -/
def warningCount (tr : List Event) : Nat :=
  (tr.filter (fun e => match e with
    | Event.log "WARNING" _ => true
    | _ => false)).length

/-- A world in which every subprocess succeeds with output `DevHub` and
every path exists; used to exhibit concrete runs. -/
def goodWorld : World where
  proc := fun _ => { exitCode := 0, output := "DevHub" }
  fs := fun _ => true

/-- A world in which every subprocess fails with output `boom`. -/
def failWorld : World where
  proc := fun _ => { exitCode := 1, output := "boom" }
  fs := fun _ => true

/-- The empty initial state. -/
def s0 : PState := { trace := [], calls := 0 }

/-- The outcome the specification's multi-select parsing expects for one
token: the picked option for an in-range index, nothing otherwise. -/
def pickOf (options : List String) (token0 : String) : Option String :=
  let token := pyStrip token0
  if token = "" then none
  else if pyIsDigit token = false then none
  else if 1 ≤ pyInt token ∧ pyInt token ≤ options.length then
    some (options.getD (pyInt token - 1) "")
  else none

/-- The warning one token of `choose_many` produces, if any. -/
def warnOf (options : List String) (token0 : String) : Option Warn :=
  let token := pyStrip token0
  if token = "" then none
  else if pyIsDigit token = false then some (Warn.notNumber token)
  else if 1 ≤ pyInt token ∧ pyInt token ≤ options.length then none
  else some (Warn.outOfRange token)


/-- `m` launches no subprocess whose command fails `P`: every command in
the final trace was already in the starting trace or satisfies `P`. -/
def NoNew (P : List String → Prop) {α : Type} (m : M α) : Prop :=
  ∀ w s t, t ∈ invokedCmds ((m w s).2.trace) → t ∈ invokedCmds s.trace ∨ P t

/-- `NoNew` relative to one fixed world. -/
def NoNewW (P : List String → Prop) (w : World) {α : Type} (m : M α) : Prop :=
  ∀ s t, t ∈ invokedCmds ((m w s).2.trace) → t ∈ invokedCmds s.trace ∨ P t

/-- `m` either returns normally or terminates with exit code 1. -/
def OkOrOne {α : Type} (m : M α) : Prop :=
  ∀ w s, (∃ a, (m w s).1 = Res.ok a) ∨ (m w s).1 = Res.exit 1

/-- Commands other than the scratch-org creation command. -/
def NotCreate (t : List String) : Prop := isCreateScratch t = false

/-! ## Helper lemmas: characters and stripping -/

theorem char_toNat_inj {a b : Char} (h : a.toNat = b.toNat) : a = b :=
  Char.eq_of_val_eq (UInt32.ext h)

theorem toNat_charOfNat {n : Nat} (h : n < 55296) : (Char.ofNat n).toNat = n := by
  unfold Char.ofNat
  rw [dif_pos (Or.inl h)]
  simp [Char.ofNatAux, Char.toNat, UInt32.ofNat', UInt32.toNat, BitVec.toNat_ofNatLt]

theorem toNat_lowerChar_of_upper {c : Char} (h : 65 ≤ c.toNat ∧ c.toNat ≤ 90) :
    (lowerChar c).toNat = c.toNat + 32 := by
  rw [lowerChar, if_pos h]
  exact toNat_charOfNat (by omega)

theorem lowerChar_idem (c : Char) : lowerChar (lowerChar c) = lowerChar c := by
  by_cases h : 65 ≤ c.toNat ∧ c.toNat ≤ 90
  · have ht := toNat_lowerChar_of_upper h
    rw [lowerChar, if_neg (by omega)]
  · have hc : lowerChar c = c := by rw [lowerChar, if_neg h]
    simp only [hc]

theorem pyIsSpace_false_of_toNat {d : Char} (h : 96 < d.toNat) : pyIsSpace d = false := by
  have h1 : d ≠ ' ' := fun he => by rw [he] at h; exact absurd h (by decide)
  have h2 : d ≠ '\t' := fun he => by rw [he] at h; exact absurd h (by decide)
  have h3 : d ≠ '\n' := fun he => by rw [he] at h; exact absurd h (by decide)
  have h4 : d ≠ '\r' := fun he => by rw [he] at h; exact absurd h (by decide)
  have h5 : d ≠ '\x0b' := fun he => by rw [he] at h; exact absurd h (by decide)
  have h6 : d ≠ '\x0c' := fun he => by rw [he] at h; exact absurd h (by decide)
  simp [pyIsSpace, h1, h2, h3, h4, h5, h6]

theorem spaceToHyphen_lowerChar_not_space {c : Char} (h : pyIsSpace c = false) :
    pyIsSpace (spaceToHyphen (lowerChar c)) = false := by
  by_cases hu : 65 ≤ c.toNat ∧ c.toNat ≤ 90
  · have ht := toNat_lowerChar_of_upper hu
    have hne : lowerChar c ≠ ' ' := by
      intro he
      rw [he] at ht
      have h32 : (' ' : Char).toNat = 32 := by decide
      rw [h32] at ht
      omega
    rw [spaceToHyphen, if_neg hne]
    exact pyIsSpace_false_of_toNat (by omega)
  · have hc : lowerChar c = c := by rw [lowerChar, if_neg hu]
    rw [hc]
    by_cases he : c = ' '
    · rw [spaceToHyphen, if_pos he]; decide
    · rw [spaceToHyphen, if_neg he]; exact h

theorem dropWhile_head_not {α : Type} (p : α → Bool) :
    ∀ l : List α, ∀ c, (l.dropWhile p).head? = some c → p c = false := by
  intro l
  induction l with
  | nil => intro c h; simp at h
  | cons x xs ih =>
    intro c h
    by_cases hx : p x
    · rw [List.dropWhile_cons, if_pos hx] at h
      exact ih c h
    · rw [List.dropWhile_cons, if_neg hx] at h
      simp at h
      rw [← h]
      exact Bool.eq_false_iff.mpr hx

theorem dropWhile_eq_self_of_head {α : Type} (p : α → Bool) (l : List α)
    (h : ∀ c, l.head? = some c → p c = false) : l.dropWhile p = l := by
  cases l with
  | nil => rfl
  | cons x xs =>
    rw [List.dropWhile_cons, if_neg]
    rw [h x rfl]
    simp

theorem dropWhile_idem {α : Type} (p : α → Bool) (l : List α) :
    (l.dropWhile p).dropWhile p = l.dropWhile p :=
  dropWhile_eq_self_of_head p _ (dropWhile_head_not p l)

theorem dropWhile_append_last {α : Type} (p : α → Bool) (a : α) (h : p a = false) :
    ∀ xs : List α, ∃ u, (xs ++ [a]).dropWhile p = u ++ [a] := by
  intro xs
  induction xs with
  | nil =>
    refine ⟨[], ?_⟩
    simp [List.dropWhile, h]
  | cons x rest ih =>
    by_cases hx : p x
    · obtain ⟨u, hu⟩ := ih
      refine ⟨u, ?_⟩
      rw [List.cons_append, List.dropWhile_cons, if_pos hx, hu]
    · refine ⟨x :: rest, ?_⟩
      rw [List.cons_append, List.dropWhile_cons, if_neg hx]

theorem stripList_rev_dropWhile (l : List Char) :
    (stripList l).reverse.dropWhile pyIsSpace = (stripList l).reverse := by
  rw [stripList, List.reverse_reverse]
  exact dropWhile_idem _ _

theorem stripList_dropWhile (l : List Char) :
    (stripList l).dropWhile pyIsSpace = stripList l := by
  rcases hA : l.dropWhile pyIsSpace with _ | ⟨a, A⟩
  · rw [stripList, hA]
    rfl
  · have ha : pyIsSpace a = false := dropWhile_head_not pyIsSpace l a (by rw [hA]; rfl)
    obtain ⟨u, hu⟩ := dropWhile_append_last pyIsSpace a ha A.reverse
    have h1 : stripList l = a :: u.reverse := by
      rw [stripList, hA, List.reverse_cons, hu, List.reverse_append]
      rfl
    rw [h1]
    exact dropWhile_eq_self_of_head _ _ (by intro c hc; simp at hc; rw [← hc]; exact ha)

theorem stripList_idem (l : List Char) : stripList (stripList l) = stripList l := by
  rw [stripList, stripList_dropWhile, stripList_rev_dropWhile, List.reverse_reverse]

theorem stripList_head_not (l : List Char) :
    ∀ c, (stripList l).head? = some c → pyIsSpace c = false := by
  intro c hc
  apply dropWhile_head_not pyIsSpace (stripList l)
  rw [stripList_dropWhile]
  exact hc

theorem stripList_rev_head_not (l : List Char) :
    ∀ c, (stripList l).reverse.head? = some c → pyIsSpace c = false := by
  intro c hc
  apply dropWhile_head_not pyIsSpace (stripList l).reverse
  rw [stripList_rev_dropWhile]
  exact hc

theorem normChar_idem (c : Char) :
    spaceToHyphen (lowerChar (spaceToHyphen (lowerChar c))) = spaceToHyphen (lowerChar c) := by
  by_cases hd : lowerChar c = ' '
  · rw [hd]
    decide
  · have h1 : spaceToHyphen (lowerChar c) = lowerChar c := by rw [spaceToHyphen, if_neg hd]
    rw [h1, lowerChar_idem, h1]

theorem stripList_norm_map (x : List Char) :
    stripList (((stripList x).map lowerChar).map spaceToHyphen)
      = ((stripList x).map lowerChar).map spaceToHyphen := by
  rw [List.map_map]
  have hhead : ∀ c, ((stripList x).map (spaceToHyphen ∘ lowerChar)).head? = some c →
      pyIsSpace c = false := by
    intro c hc
    rw [List.head?_map] at hc
    rcases ho : (stripList x).head? with _ | d
    · rw [ho] at hc; simp at hc
    · rw [ho] at hc
      simp at hc
      rw [← hc]
      exact spaceToHyphen_lowerChar_not_space (stripList_head_not x d ho)
  have htail : ∀ c, ((stripList x).map (spaceToHyphen ∘ lowerChar)).reverse.head? = some c →
      pyIsSpace c = false := by
    intro c hc
    rw [← List.map_reverse, List.head?_map] at hc
    rcases ho : (stripList x).reverse.head? with _ | d
    · rw [ho] at hc; simp at hc
    · rw [ho] at hc
      simp at hc
      rw [← hc]
      exact spaceToHyphen_lowerChar_not_space (stripList_rev_head_not x d ho)
  rw [stripList]
  rw [dropWhile_eq_self_of_head _ _ hhead]
  rw [dropWhile_eq_self_of_head _ _ htail, List.reverse_reverse]

/-! ## Claim C3: `norm_env` is idempotent -/

/-- Claim C3: for every raw environment-name string, `norm_env` is
idempotent — normalizing twice equals normalizing once — and on the
specification example, `norm_env "FE Hello" = "fe-hello"`. -/
theorem claim_C3 :
    (∀ s : String, norm_env (norm_env s) = norm_env s) ∧
      norm_env "FE Hello" = "fe-hello" := by
  constructor
  · intro s
    show String.mk (((stripList (((stripList s.data).map lowerChar).map spaceToHyphen)).map
      lowerChar).map spaceToHyphen) = String.mk (((stripList s.data).map lowerChar).map spaceToHyphen)
    rw [stripList_norm_map]
    congr 1
    rw [List.map_map, List.map_map, List.map_map, List.map_map]
    apply List.map_congr_left
    intro c _
    simp only [Function.comp_apply]
    exact normChar_idem c
  · decide

/-! ## Claim C8: the `-review` suffix rule for the scratch alias -/

/-- Claim C8 counterexample: the claim that the final alias never carries
the `-review` suffix when review mode is off fails for the raw name
`"x review"`, whose non-review alias is `"x-review"`. -/
theorem claim_C8_counterexample :
    main_scratch_alias "x review" false = "x-review" ∧
      strEndsWith (main_scratch_alias "x review" false) "-review" = true := by
  constructor
  · decide
  · decide

/-- Claim C8 (amended): the final scratch-org alias is the normalized
name with `-review` appended exactly when review mode is on; with review
mode off it is exactly the normalized name (which can itself end in
`-review` when the raw name does); on the specification example,
normalizing `"FE Hello"` in review mode yields `"fe-hello-review"`. -/
theorem claim_C8 :
    (∀ raw : String, main_scratch_alias raw true = norm_env raw ++ "-review") ∧
      (∀ raw : String, main_scratch_alias raw false = norm_env raw) ∧
      main_scratch_alias "FE Hello" true = "fe-hello-review" := by
  refine ⟨fun raw => rfl, fun raw => rfl, by decide⟩

/-! ## Helper lemmas: the effect monad -/

theorem bind_ok {α β : Type} {x : M α} {f : α → M β} {w : World} {s : PState}
    {a : α} {s1 : PState} (h : x w s = (Res.ok a, s1)) :
    (x >>= f) w s = f a w s1 := by
  show M.bind x f w s = _
  simp only [M.bind, h]

theorem bind_exit {α β : Type} {x : M α} {f : α → M β} {w : World} {s : PState}
    {c : Nat} {s1 : PState} (h : x w s = (Res.exit c, s1)) :
    (x >>= f) w s = (Res.exit c, s1) := by
  show M.bind x f w s = _
  simp only [M.bind, h]

theorem emit_apply (e : Event) (w : World) (s : PState) :
    emit e w s = (Res.ok (), { trace := s.trace ++ [e], calls := s.calls }) := rfl

theorem pure_apply {α : Type} (a : α) (w : World) (s : PState) :
    (pure a : M α) w s = (Res.ok a, s) := rfl

theorem fsExists_apply (p : String) (w : World) (s : PState) :
    fsExists p w s = (Res.ok (w.fs p), s) := rfl

theorem sysExit_apply {α : Type} (c : Nat) (w : World) (s : PState) :
    (sysExit c : M α) w s = (Res.exit c, s) := rfl

theorem run_apply (cmd : List String) (cwd : Option String) (pt : Bool)
    (w : World) (s : PState) :
    run cmd cwd pt w s =
      (if (w.proc s.calls).exitCode = 0
        then Res.ok (if pt then none else some (w.proc s.calls).output)
        else Res.exit 1,
       { trace := s.trace ++ runDelta cmd cwd pt (w.proc s.calls), calls := s.calls + 1 }) := rfl

theorem run_sub_apply (cmd : List String) (pt : Bool) (cwd : Option String)
    (w : World) (s : PState) :
    run_subprocess cmd pt cwd w s =
      (if (w.proc s.calls).exitCode = 0
        then Res.ok (if pt then none else some (w.proc s.calls).output)
        else Res.exit 1,
       { trace := s.trace ++ runDelta cmd cwd pt (w.proc s.calls), calls := s.calls + 1 }) := rfl

theorem run_sub_ok {cmd : List String} {pt : Bool} {cwd : Option String}
    {w : World} {s : PState} (h : (w.proc s.calls).exitCode = 0) :
    run_subprocess cmd pt cwd w s =
      (Res.ok (if pt then none else some (w.proc s.calls).output),
       { trace := s.trace ++ runDelta cmd cwd pt (w.proc s.calls), calls := s.calls + 1 }) := by
  rw [run_sub_apply, if_pos h]

theorem run_sub_fail {cmd : List String} {pt : Bool} {cwd : Option String}
    {w : World} {s : PState} (h : (w.proc s.calls).exitCode ≠ 0) :
    run_subprocess cmd pt cwd w s =
      (Res.exit 1,
       { trace := s.trace ++ runDelta cmd cwd pt (w.proc s.calls), calls := s.calls + 1 }) := by
  rw [run_sub_apply, if_neg h]

theorem run_ok {cmd : List String} {cwd : Option String} {pt : Bool}
    {w : World} {s : PState} (h : (w.proc s.calls).exitCode = 0) :
    run cmd cwd pt w s =
      (Res.ok (if pt then none else some (w.proc s.calls).output),
       { trace := s.trace ++ runDelta cmd cwd pt (w.proc s.calls), calls := s.calls + 1 }) := by
  rw [run_apply, if_pos h]

theorem run_fail {cmd : List String} {cwd : Option String} {pt : Bool}
    {w : World} {s : PState} (h : (w.proc s.calls).exitCode ≠ 0) :
    run cmd cwd pt w s =
      (Res.exit 1,
       { trace := s.trace ++ runDelta cmd cwd pt (w.proc s.calls), calls := s.calls + 1 }) := by
  rw [run_apply, if_neg h]

theorem invokedCmds_append (a b : List Event) :
    invokedCmds (a ++ b) = invokedCmds a ++ invokedCmds b :=
  List.filterMap_append a b _

theorem invokedCmds_runDelta (cmd : List String) (cwd : Option String) (pt : Bool)
    (r : SubprocResult) : invokedCmds (runDelta cmd cwd pt r) = [cmd] := by
  by_cases h0 : r.exitCode = 0
  · simp [runDelta, invokedCmds, h0]
  · by_cases hp : pt = false ∧ r.output ≠ ""
    · simp [runDelta, invokedCmds, h0, hp]
    · simp [runDelta, invokedCmds, h0, hp]

theorem noNew_bind {P : List String → Prop} {α β : Type} {x : M α} {f : α → M β}
    (hx : NoNew P x) (hf : ∀ a, NoNew P (f a)) : NoNew P (x >>= f) := by
  intro w s t ht
  rcases hxs : x w s with ⟨r, s1⟩
  cases r with
  | ok a =>
    rw [bind_ok hxs] at ht
    rcases hf a w s1 t ht with h1 | h2
    · exact hx w s t (by rw [hxs]; exact h1)
    · exact Or.inr h2
  | exit c =>
    rw [bind_exit hxs] at ht
    exact hx w s t (by rw [hxs]; exact ht)

theorem noNew_emit {P : List String → Prop} (e : Event) (h : invokedCmds [e] = []) :
    NoNew P (emit e) := by
  intro w s t ht
  rw [emit_apply] at ht
  simp only [invokedCmds_append, h, List.append_nil] at ht
  exact Or.inl ht

theorem noNew_pure {P : List String → Prop} {α : Type} (a : α) :
    NoNew P (pure a : M α) := by
  intro w s t ht
  exact Or.inl ht

theorem noNew_sysExit {P : List String → Prop} {α : Type} (c : Nat) :
    NoNew P (sysExit c : M α) := by
  intro w s t ht
  exact Or.inl ht

theorem noNew_fsExists {P : List String → Prop} (p : String) :
    NoNew P (fsExists p) := by
  intro w s t ht
  exact Or.inl ht

theorem noNew_run {P : List String → Prop} {cmd : List String}
    (cwd : Option String) (pt : Bool) (hp : P cmd) : NoNew P (run cmd cwd pt) := by
  intro w s t ht
  rw [run_apply] at ht
  simp only [invokedCmds_append, invokedCmds_runDelta, List.mem_append,
    List.mem_singleton] at ht
  rcases ht with h1 | h2
  · exact Or.inl h1
  · exact Or.inr (h2 ▸ hp)

theorem noNew_run_sub {P : List String → Prop} {cmd : List String}
    (pt : Bool) (cwd : Option String) (hp : P cmd) : NoNew P (run_subprocess cmd pt cwd) := by
  intro w s t ht
  rw [run_sub_apply] at ht
  simp only [invokedCmds_append, invokedCmds_runDelta, List.mem_append,
    List.mem_singleton] at ht
  rcases ht with h1 | h2
  · exact Or.inl h1
  · exact Or.inr (h2 ▸ hp)

theorem noNew_ite {P : List String → Prop} {α : Type} {c : Prop} [Decidable c]
    {x y : M α} (hx : NoNew P x) (hy : NoNew P y) : NoNew P (if c then x else y) := by
  by_cases hc : c
  · rw [if_pos hc]; exact hx
  · rw [if_neg hc]; exact hy

theorem okOrOne_bind {α β : Type} {x : M α} {f : α → M β}
    (hx : OkOrOne x) (hf : ∀ a, OkOrOne (f a)) : OkOrOne (x >>= f) := by
  intro w s
  rcases hxs : x w s with ⟨r, s1⟩
  cases r with
  | ok a =>
    rw [bind_ok hxs]
    exact hf a w s1
  | exit c =>
    rcases hx w s with ⟨a, ha⟩ | h1
    · rw [hxs] at ha; exact absurd ha (by simp)
    · right
      rw [bind_exit hxs]
      rw [hxs] at h1
      have hc : c = 1 := by simpa using h1
      rw [hc]

theorem okOrOne_emit (e : Event) : OkOrOne (emit e) := by
  intro w s
  exact Or.inl ⟨(), rfl⟩

theorem okOrOne_pure {α : Type} (a : α) : OkOrOne (pure a : M α) := by
  intro w s
  exact Or.inl ⟨a, rfl⟩

theorem okOrOne_sysExitOne {α : Type} : OkOrOne (sysExit 1 : M α) := by
  intro w s
  exact Or.inr rfl

theorem okOrOne_fsExists (p : String) : OkOrOne (fsExists p) := by
  intro w s
  exact Or.inl ⟨w.fs p, rfl⟩

theorem okOrOne_run (cmd : List String) (cwd : Option String) (pt : Bool) :
    OkOrOne (run cmd cwd pt) := by
  intro w s
  rw [run_apply]
  by_cases h : (w.proc s.calls).exitCode = 0
  · rw [if_pos h]; exact Or.inl ⟨_, rfl⟩
  · rw [if_neg h]; exact Or.inr rfl

theorem okOrOne_run_sub (cmd : List String) (pt : Bool) (cwd : Option String) :
    OkOrOne (run_subprocess cmd pt cwd) := by
  intro w s
  rw [run_sub_apply]
  by_cases h : (w.proc s.calls).exitCode = 0
  · rw [if_pos h]; exact Or.inl ⟨_, rfl⟩
  · rw [if_neg h]; exact Or.inr rfl

theorem okOrOne_ite {α : Type} {c : Prop} [Decidable c] {x y : M α}
    (hx : OkOrOne x) (hy : OkOrOne y) : OkOrOne (if c then x else y) := by
  by_cases hc : c
  · rw [if_pos hc]; exact hx
  · rw [if_neg hc]; exact hy

/-! ## Claim C1: a failing subprocess is fatal with exit code 1 -/

/-- Claim C1: whenever the next subprocess outcome has a non-zero exit
status, both process runners (`run` of `pull_metadata.py` and
`run_subprocess` of `start_development.py`) terminate the program with
exit code 1; the captured output, when non-empty (capture mode), is
printed before termination — it is the last trace event; and any
continuation of the program after the runner never executes, so the whole
program ends with exit code 1 no matter which workflow step invoked the
runner. -/
theorem claim_C1 (cmd : List String) (cwd : Option String) (pt : Bool)
    (w : World) (s : PState) (h : (w.proc s.calls).exitCode ≠ 0) :
    (run cmd cwd pt w s =
      (Res.exit 1,
       { trace := s.trace ++
           [Event.log "STATUS" ("$ " ++ joinTokens cmd), Event.invoked cmd cwd pt,
            Event.log "ERROR" ("FAILED: " ++ joinTokens cmd)] ++
           (if pt = false ∧ (w.proc s.calls).output ≠ ""
             then [Event.printed (w.proc s.calls).output] else []),
         calls := s.calls + 1 })) ∧
    (run_subprocess cmd pt cwd w s =
      (Res.exit 1,
       { trace := s.trace ++
           [Event.log "STATUS" ("$ " ++ joinTokens cmd), Event.invoked cmd cwd pt,
            Event.log "ERROR" ("FAILED: " ++ joinTokens cmd)] ++
           (if pt = false ∧ (w.proc s.calls).output ≠ ""
             then [Event.printed (w.proc s.calls).output] else []),
         calls := s.calls + 1 })) ∧
    (∀ (β : Type) (rest : Option String → M β),
      ((run cmd cwd pt >>= rest) w s).1 = Res.exit 1) ∧
    (∀ (β : Type) (rest : Option String → M β),
      ((run_subprocess cmd pt cwd >>= rest) w s).1 = Res.exit 1) := by
  refine ⟨?_, ?_, ?_, ?_⟩
  · rw [run_fail h]
    simp [runDelta, h]
  · rw [run_sub_fail h]
    simp [runDelta, h]
  · intro β rest
    rw [bind_exit (run_fail h)]
  · intro β rest
    rw [bind_exit (run_sub_fail h)]

/-- Claim C1 witness: at a concrete failing world, the runner exits with
code 1 and the captured output `boom` is printed last. -/
theorem claim_C1_witness :
    run ["sf", "--version"] none false failWorld s0 =
      (Res.exit 1,
       { trace := [Event.log "STATUS" "$ sf --version",
                   Event.invoked ["sf", "--version"] none false,
                   Event.log "ERROR" "FAILED: sf --version",
                   Event.printed "boom"],
         calls := 1 }) := by
  have := (claim_C1 ["sf", "--version"] none false failWorld s0 (by decide)).1
  simpa using this

/-! ## Helper lemmas: `choose_many` -/

theorem chooseAcc_eq (options : List String) (acc : List String × List Warn)
    (token0 : String) :
    chooseAcc options acc token0 =
      (acc.1 ++ (pickOf options token0).toList, acc.2 ++ (warnOf options token0).toList) := by
  rcases acc with ⟨p, ws⟩
  by_cases h1 : pyStrip token0 = ""
  · simp [chooseAcc, pickOf, warnOf, h1]
  · by_cases h2 : pyIsDigit (pyStrip token0) = false
    · simp [chooseAcc, pickOf, warnOf, h1, h2]
    · by_cases h3 : 1 ≤ pyInt (pyStrip token0) ∧ pyInt (pyStrip token0) ≤ options.length
      · simp [chooseAcc, pickOf, warnOf, h1, h2, h3]
      · simp [chooseAcc, pickOf, warnOf, h1, h2, h3]

theorem foldl_chooseAcc (options : List String) :
    ∀ (ts : List String) (p : List String) (ws : List Warn),
      ts.foldl (chooseAcc options) (p, ws) =
        (p ++ ts.filterMap (pickOf options), ws ++ ts.filterMap (warnOf options)) := by
  intro ts
  induction ts with
  | nil => intro p ws; simp
  | cons t rest ih =>
    intro p ws
    rw [List.foldl_cons, chooseAcc_eq, ih]
    rcases hp : pickOf options t with _ | b <;>
      rcases hw : warnOf options t with _ | v <;>
        simp [List.filterMap_cons, hp, hw]

theorem choose_many_eq (options : List String) (raw : String) :
    choose_many options raw =
      ((pySplit ',' (pyStrip raw)).filterMap (pickOf options),
       (pySplit ',' (pyStrip raw)).filterMap (warnOf options)) := by
  rw [choose_many]
  by_cases h : pyStrip raw = ""
  · rw [if_pos h, h]
    have hb : pickOf options "" = none := rfl
    have hw : warnOf options "" = none := rfl
    simp [pySplit, splitOnChar, List.filterMap_cons, hb, hw]
  · rw [if_neg h]
    rw [foldl_chooseAcc]
    simp

/-! ## Claim C4: multi-select parsing on the specification example -/

/-- Claim C4: with options `["A", "B", "C"]` and raw input `"1,3,9,x"`,
`choose_many` returns exactly `["A", "C"]` with one out-of-range warning
for token `9` and one not-a-number warning for token `x` (it is a total
function, so no exception is possible); and for every option list, input
that strips to blank returns the empty selection with no warnings. -/
theorem claim_C4 :
    choose_many ["A", "B", "C"] "1,3,9,x" =
      (["A", "C"], [Warn.outOfRange "9", Warn.notNumber "x"]) ∧
    (∀ (options : List String) (raw : String), pyStrip raw = "" →
      choose_many options raw = ([], [])) := by
  constructor
  · decide
  · intro options raw h
    simp [choose_many, h]

/-- Claim C4 witness: blank (all-whitespace) input cancels with an empty
selection. -/
theorem claim_C4_witness : choose_many ["Z"] "  " = ([], []) :=
  claim_C4.2 ["Z"] "  " (by decide)

/-! ## Claim C10: structural properties of `choose_many` -/

/-- Claim C10: for every option list and raw input, the selection equals
the in-order `filterMap` of the per-token pick over the comma-split input
(so elements appear in the order their indices were typed, and a repeated
valid index yields a repeated element — witnessed concretely by input
`"1,1"`); every selected element is an element of the option list; and
the selection is never longer than the token list of the input. -/
theorem claim_C10 :
    (∀ (options : List String) (raw : String),
      (choose_many options raw).1 =
        (pySplit ',' (pyStrip raw)).filterMap (pickOf options) ∧
      (∀ x, x ∈ (choose_many options raw).1 → x ∈ options) ∧
      (choose_many options raw).1.length ≤ (pySplit ',' (pyStrip raw)).length) ∧
    choose_many ["A", "B"] "1,1" = (["A", "A"], []) := by
  constructor
  · intro options raw
    have he : (choose_many options raw).1 =
        (pySplit ',' (pyStrip raw)).filterMap (pickOf options) := by
      rw [choose_many_eq]
    refine ⟨he, ?_, ?_⟩
    · intro x hx
      rw [he, List.mem_filterMap] at hx
      obtain ⟨tok, _, htok⟩ := hx
      by_cases h1 : pyStrip tok = ""
      · simp [pickOf, h1] at htok
      · by_cases h2 : pyIsDigit (pyStrip tok) = false
        · simp [pickOf, h1, h2] at htok
        · by_cases h3 : 1 ≤ pyInt (pyStrip tok) ∧ pyInt (pyStrip tok) ≤ options.length
          · simp [pickOf, h1, h2, h3] at htok
            have hlt : pyInt (pyStrip tok) - 1 < options.length := by omega
            rw [← htok, List.getElem?_eq_getElem hlt]
            simp only [Option.getD_some]
            exact List.getElem_mem hlt
          · simp [pickOf, h1, h2, h3] at htok
    · rw [he]
      exact List.length_filterMap_le _ _
  · decide

/-- Claim C10 witness: concrete instance of the universally quantified
part, at options `["A", "B", "C"]` and input `"2,2,1"`. -/
theorem claim_C10_witness :
    (choose_many ["A", "B", "C"] "2,2,1").1 = ["B", "B", "A"] ∧
    "B" ∈ ["A", "B", "C"] := by
  have h := claim_C10.1 ["A", "B", "C"] "2,2,1"
  exact ⟨by decide, h.2.1 "B" (by decide)⟩

/-! ## Helper lemmas: which commands each stage can launch -/

theorem noNew_log {P : List String → Prop} (lv m : String) :
    NoNew P (emit (Event.log lv m)) := noNew_emit _ rfl

theorem noNew_git {P : List String → Prop} (env : String) (rm : Bool)
    (h1 : P ["git", "checkout", "main"])
    (h2 : P ["git", "pull", "origin", "main"])
    (h3 : P ["git", "checkout", "-b", env, "main"])
    (h4 : P ["git", "branch", "--list", env])
    (h5 : P ["git", "branch", "-D", env])
    (h6 : P ["git", "checkout", "-b", env, "origin/" ++ env]) :
    NoNew P (git_prepare_branch env rm) := by
  rw [git_prepare_branch]
  apply noNew_bind (noNew_log _ _); intro _
  apply noNew_bind (noNew_log _ _); intro _
  apply noNew_bind (noNew_run_sub _ _ h1); intro _
  apply noNew_bind (noNew_run_sub _ _ h2); intro _
  apply noNew_ite
  · apply noNew_bind (noNew_log _ _); intro _
    apply noNew_bind (noNew_log _ _); intro _
    apply noNew_bind (noNew_run_sub _ _ h3); intro _
    exact noNew_pure _
  · apply noNew_bind (noNew_log _ _); intro _
    apply noNew_bind (noNew_log _ _); intro _
    apply noNew_bind (noNew_run_sub _ _ h4); intro existing
    apply noNew_ite
    · apply noNew_bind (noNew_log _ _); intro _
      apply noNew_bind (noNew_run_sub _ _ h5); intro _
      apply noNew_bind (noNew_pure _); intro _
      apply noNew_bind (noNew_run_sub _ _ h6); intro _
      exact noNew_pure _
    · apply noNew_bind (noNew_pure _); intro _
      apply noNew_bind (noNew_run_sub _ _ h6); intro _
      exact noNew_pure _

theorem noNew_check {P : List String → Prop} (h : P ["sf", "--version"]) :
    NoNew P check_sfcli_exists := by
  rw [check_sfcli_exists]
  apply noNew_bind (noNew_log _ _); intro _
  apply noNew_bind (noNew_log _ _); intro _
  apply noNew_bind (noNew_run_sub _ _ h); intro _
  exact noNew_pure _

theorem noNew_login {P : List String → Prop} (url : String) (force : Bool)
    (h1 : P ["sf", "org", "list"])
    (h2 : P ["sf", "org", "login", "web", "--alias", "DevHub",
      "--set-default-dev-hub", "--instance-url", url]) :
    NoNew P (login_devhub url force) := by
  rw [login_devhub]
  apply noNew_bind (noNew_log _ _); intro _
  apply noNew_bind (noNew_log _ _); intro _
  apply noNew_bind (noNew_log _ _); intro _
  apply noNew_bind (noNew_log _ _); intro _
  apply noNew_bind (noNew_run_sub _ _ h1); intro orgs0
  apply noNew_ite
  · apply noNew_bind (noNew_log _ _); intro _
    apply noNew_bind (noNew_run_sub _ _ h2); intro _
    apply noNew_bind (noNew_pure _); intro _
    apply noNew_bind (noNew_run_sub _ _ h1); intro orgs1
    apply noNew_ite
    · apply noNew_bind (noNew_log _ _); intro _
      exact noNew_sysExit _
    · exact noNew_pure _
  · apply noNew_bind (noNew_log _ _); intro _
    apply noNew_bind (noNew_run_sub _ _ h1); intro orgs1
    apply noNew_ite
    · apply noNew_bind (noNew_log _ _); intro _
      exact noNew_sysExit _
    · exact noNew_pure _

theorem noNew_create {P : List String → Prop} (al : String) (rm pm : Bool)
    (h : P (["sf", "org", "create", "scratch", "--definition-file", SCRATCH_DEF,
      "--alias", al, "--duration-days", if rm then "7" else "30",
      "--set-default"] ++ (if pm then ["--release", "Preview"] else []))) :
    NoNew P (create_scratch_org al rm pm) := by
  rw [create_scratch_org]
  apply noNew_bind (noNew_log _ _); intro _
  apply noNew_bind (noNew_log _ _); intro _
  apply noNew_bind (noNew_fsExists _); intro ex
  apply noNew_ite
  · apply noNew_bind (noNew_log _ _); intro _
    exact noNew_sysExit _
  · apply noNew_bind (noNew_run_sub _ _ h); intro _
    exact noNew_pure _

theorem noNew_deploy {P : List String → Prop} (al : String)
    (h : P ["sf", "project", "deploy", "start", "--target-org", al,
      "--source-dir", SOURCE_DIR]) :
    NoNew P (deploy_source_metadata al) := by
  rw [deploy_source_metadata]
  apply noNew_bind (noNew_log _ _); intro _
  apply noNew_bind (noNew_fsExists _); intro ex
  apply noNew_ite
  · apply noNew_bind (noNew_log _ _); intro _
    exact noNew_sysExit _
  · apply noNew_bind (noNew_log _ _); intro _
    apply noNew_bind (noNew_run_sub _ _ h); intro _
    exact noNew_pure _

theorem noNew_open {P : List String → Prop} (al : String) (rm : Bool)
    (h : P ["sf", "org", "open", "--target-org", al]) :
    NoNew P (open_scratch_org al rm) := by
  rw [open_scratch_org]
  apply noNew_bind (noNew_log _ _); intro _
  apply noNew_bind (noNew_log _ _); intro _
  apply noNew_bind (noNew_run_sub _ _ h); intro _
  exact noNew_pure _

theorem noNew_main {P : List String → Prop} (env : String) (review : Bool)
    (url : String) (force preview : Bool)
    (h1 : P ["git", "checkout", "main"])
    (h2 : P ["git", "pull", "origin", "main"])
    (h3 : P ["git", "checkout", "-b", main_env env, "main"])
    (h4 : P ["git", "branch", "--list", main_env env])
    (h5 : P ["git", "branch", "-D", main_env env])
    (h6 : P ["git", "checkout", "-b", main_env env, "origin/" ++ main_env env])
    (h7 : P ["sf", "--version"])
    (h8 : P ["sf", "org", "list"])
    (h9 : P ["sf", "org", "login", "web", "--alias", "DevHub",
      "--set-default-dev-hub", "--instance-url", url])
    (h10 : P (["sf", "org", "create", "scratch", "--definition-file", SCRATCH_DEF,
      "--alias", main_scratch_alias env review, "--duration-days",
      if review then "7" else "30",
      "--set-default"] ++ (if preview then ["--release", "Preview"] else [])))
    (h11 : P ["sf", "project", "deploy", "start", "--target-org",
      main_scratch_alias env review, "--source-dir", SOURCE_DIR])
    (h12 : P ["sf", "org", "open", "--target-org", main_scratch_alias env review]) :
    NoNew P (main env review url force preview) := by
  rw [main]
  apply noNew_bind (noNew_log _ _); intro _
  apply noNew_bind (noNew_log _ _); intro _
  apply noNew_bind (noNew_log _ _); intro _
  apply noNew_bind (noNew_git (main_env env) review h1 h2 h3 h4 h5 h6); intro _
  apply noNew_bind (noNew_log _ _); intro _
  apply noNew_bind (noNew_check h7); intro _
  apply noNew_bind (noNew_login url force h8 h9); intro _
  apply noNew_bind (noNew_log _ _); intro _
  apply noNew_bind (noNew_create (main_scratch_alias env review) review preview h10); intro _
  apply noNew_bind (noNew_log _ _); intro _
  apply noNew_bind (noNew_deploy (main_scratch_alias env review) h11); intro _
  apply noNew_bind (noNew_log _ _); intro _
  apply noNew_bind (noNew_open (main_scratch_alias env review) review h12); intro _
  exact noNew_emit _ rfl

/-! ## Claim C2: which alias each sequencer stage receives -/

/-- Claim C2 counterexample: for raw name `"FE Hello"` in review mode,
the suffixed alias is NOT the identical string passed to all six stages:
`main` passes `"fe-hello"` to branch preparation but `"fe-hello-review"`
to scratch-org creation, as the concrete run trace shows. -/
theorem claim_C2_counterexample :
    main_env "FE Hello" = "fe-hello" ∧
    main_scratch_alias "FE Hello" true = "fe-hello-review" ∧
    main_env "FE Hello" ≠ main_scratch_alias "FE Hello" true ∧
    Event.invoked ["git", "checkout", "-b", "fe-hello", "origin/fe-hello"] none true
      ∈ (main "FE Hello" true "https://login.salesforce.com" false false goodWorld s0).2.trace ∧
    Event.invoked ["sf", "org", "create", "scratch", "--definition-file", SCRATCH_DEF,
        "--alias", "fe-hello-review", "--duration-days", "7", "--set-default"] none true
      ∈ (main "FE Hello" true "https://login.salesforce.com" false false goodWorld s0).2.trace := by
  refine ⟨by decide, by decide, by decide, by decide, by decide⟩

/-- Claim C2 (amended): in every sequencer run, every scratch-creation
command launched by `main` carries (as its `--alias` value, token 7) the
normalized alias with the review suffix, and so do the deployment command
(`sf project deploy start`, `--target-org` value at token 5) and the
launch command (`sf org open`, `--target-org` value at token 4); every
branch-creation command (`git checkout -b`) carries (as token 3) the
normalized alias without the suffix; both alias values are fixed
functions of the arguments, and they coincide exactly when review mode
is off. -/
theorem claim_C2 :
    (∀ (env : String) (review : Bool) (url : String) (force preview : Bool)
      (w : World) (s : PState) (t : List String),
      t ∈ invokedCmds ((main env review url force preview w s).2.trace) →
      t ∈ invokedCmds s.trace ∨
        ((isCreateScratch t = true → t.getD 7 "" = main_scratch_alias env review) ∧
         (t.take 4 = ["sf", "project", "deploy", "start"] →
           t.getD 5 "" = main_scratch_alias env review) ∧
         (t.take 3 = ["sf", "org", "open"] →
           t.getD 4 "" = main_scratch_alias env review) ∧
         (t.take 3 = ["git", "checkout", "-b"] → t.getD 3 "" = main_env env))) ∧
    (∀ env : String, main_scratch_alias env false = main_env env) ∧
    (∀ env : String, main_scratch_alias env true = main_env env ++ "-review") := by
  refine ⟨?_, fun env => rfl, fun env => rfl⟩
  intro env review url force preview w s t ht
  refine @noNew_main
    (fun u => (isCreateScratch u = true → u.getD 7 "" = main_scratch_alias env review) ∧
      (u.take 4 = ["sf", "project", "deploy", "start"] →
        u.getD 5 "" = main_scratch_alias env review) ∧
      (u.take 3 = ["sf", "org", "open"] →
        u.getD 4 "" = main_scratch_alias env review) ∧
      (u.take 3 = ["git", "checkout", "-b"] → u.getD 3 "" = main_env env))
    env review url force preview ?_ ?_ ?_ ?_ ?_ ?_ ?_ ?_ ?_ ?_ ?_ ?_ w s t ht
  · exact ⟨fun h => by simp [isCreateScratch] at h, fun h => by simp at h,
      fun h => by simp at h, fun h => by simp at h⟩
  · exact ⟨fun h => by simp [isCreateScratch] at h, fun h => by simp at h,
      fun h => by simp at h, fun h => by simp at h⟩
  · exact ⟨fun h => by simp [isCreateScratch] at h, fun h => by simp at h,
      fun h => by simp at h, fun _ => rfl⟩
  · exact ⟨fun h => by simp [isCreateScratch] at h, fun h => by simp at h,
      fun h => by simp at h, fun h => by simp at h⟩
  · exact ⟨fun h => by simp [isCreateScratch] at h, fun h => by simp at h,
      fun h => by simp at h, fun h => by simp at h⟩
  · exact ⟨fun h => by simp [isCreateScratch] at h, fun h => by simp at h,
      fun h => by simp at h, fun _ => rfl⟩
  · exact ⟨fun h => by simp [isCreateScratch] at h, fun h => by simp at h,
      fun h => by simp at h, fun h => by simp at h⟩
  · exact ⟨fun h => by simp [isCreateScratch] at h, fun h => by simp at h,
      fun h => by simp at h, fun h => by simp at h⟩
  · exact ⟨fun h => by simp [isCreateScratch] at h, fun h => by simp at h,
      fun h => by simp at h, fun h => by simp at h⟩
  · exact ⟨fun _ => rfl, fun h => by simp at h,
      fun h => by simp at h, fun h => by simp at h⟩
  · exact ⟨fun h => by simp [isCreateScratch] at h, fun _ => rfl,
      fun h => by simp at h, fun h => by simp at h⟩
  · exact ⟨fun h => by simp [isCreateScratch] at h, fun h => by simp at h,
      fun _ => rfl, fun h => by simp at h⟩

/-- Claim C2 witness: concrete instances of the amended property — in the
concrete review-mode run, the branch-creation command carries `"fe-hello"`
at token 3 and the deployment command carries `"fe-hello-review"` at
token 5. -/
theorem claim_C2_witness :
    ["git", "checkout", "-b", "fe-hello", "origin/fe-hello"].getD 3 ""
        = main_env "FE Hello" ∧
      ["sf", "project", "deploy", "start", "--target-org", "fe-hello-review",
        "--source-dir", SOURCE_DIR].getD 5 ""
        = main_scratch_alias "FE Hello" true := by
  constructor
  · have h := claim_C2.1 "FE Hello" true "https://login.salesforce.com" false false
      goodWorld s0 ["git", "checkout", "-b", "fe-hello", "origin/fe-hello"] (by decide)
    rcases h with h1 | h2
    · exact absurd h1 (by decide)
    · exact h2.2.2.2 (by decide)
  · have h := claim_C2.1 "FE Hello" true "https://login.salesforce.com" false false
      goodWorld s0 ["sf", "project", "deploy", "start", "--target-org",
        "fe-hello-review", "--source-dir", SOURCE_DIR] (by decide)
    rcases h with h1 | h2
    · exact absurd h1 (by decide)
    · exact h2.2.1 (by decide)

/-! ## Helper lemmas: exit behaviour of the sequencer stages -/

theorem okOrOne_git (env : String) (rm : Bool) : OkOrOne (git_prepare_branch env rm) := by
  rw [git_prepare_branch]
  apply okOrOne_bind (okOrOne_emit _); intro _
  apply okOrOne_bind (okOrOne_emit _); intro _
  apply okOrOne_bind (okOrOne_run_sub _ _ _); intro _
  apply okOrOne_bind (okOrOne_run_sub _ _ _); intro _
  apply okOrOne_ite
  · apply okOrOne_bind (okOrOne_emit _); intro _
    apply okOrOne_bind (okOrOne_emit _); intro _
    apply okOrOne_bind (okOrOne_run_sub _ _ _); intro _
    exact okOrOne_pure _
  · apply okOrOne_bind (okOrOne_emit _); intro _
    apply okOrOne_bind (okOrOne_emit _); intro _
    apply okOrOne_bind (okOrOne_run_sub _ _ _); intro existing
    apply okOrOne_ite
    · apply okOrOne_bind (okOrOne_emit _); intro _
      apply okOrOne_bind (okOrOne_run_sub _ _ _); intro _
      apply okOrOne_bind (okOrOne_pure _); intro _
      apply okOrOne_bind (okOrOne_run_sub _ _ _); intro _
      exact okOrOne_pure _
    · apply okOrOne_bind (okOrOne_pure _); intro _
      apply okOrOne_bind (okOrOne_run_sub _ _ _); intro _
      exact okOrOne_pure _

theorem okOrOne_check : OkOrOne check_sfcli_exists := by
  rw [check_sfcli_exists]
  apply okOrOne_bind (okOrOne_emit _); intro _
  apply okOrOne_bind (okOrOne_emit _); intro _
  apply okOrOne_bind (okOrOne_run_sub _ _ _); intro _
  exact okOrOne_pure _

theorem bind_emit_apply {β : Type} (e : Event) (f : Unit → M β) (w : World) (s : PState) :
    (emit e >>= f) w s = f () w { trace := s.trace ++ [e], calls := s.calls } := rfl

theorem bind_pure_apply {α β : Type} (a : α) (f : α → M β) (w : World) (s : PState) :
    ((pure a : M α) >>= f) w s = f a w s := rfl

theorem bind_run_sub_cases {β : Type} (cmd : List String) (pt : Bool)
    (cwd : Option String) (f : Option String → M β) (w : World) (S : PState) :
    (run_subprocess cmd pt cwd >>= f) w S =
      if (w.proc S.calls).exitCode = 0
      then f (if pt then none else some (w.proc S.calls).output) w
        { trace := S.trace ++ runDelta cmd cwd pt (w.proc S.calls), calls := S.calls + 1 }
      else (Res.exit 1,
        { trace := S.trace ++ runDelta cmd cwd pt (w.proc S.calls), calls := S.calls + 1 }) := by
  by_cases h : (w.proc S.calls).exitCode = 0
  · rw [bind_ok (run_sub_ok h), if_pos h]
  · rw [bind_exit (run_sub_fail h), if_neg h]

theorem login_devhub_exits (url : String) (force : Bool) (w : World) (s : PState)
    (H : ∀ k, containsSub (w.proc k).output "DevHub" = false) :
    (login_devhub url force w s).1 = Res.exit 1 := by
  rw [login_devhub]
  simp only [logStep, logStatus, logError, bind_emit_apply]
  rw [bind_run_sub_cases]
  try dsimp only
  by_cases h0 : (w.proc s.calls).exitCode = 0
  · rw [if_pos h0]
    simp only [Bool.false_eq_true, if_false, Option.getD_some, H, Bool.not_false,
      Bool.or_true, if_true]
    simp only [logStatus, bind_emit_apply]
    rw [bind_run_sub_cases]
    try dsimp only
    by_cases h1 : (w.proc (s.calls + 1)).exitCode = 0
    · rw [if_pos h1]
      try dsimp only
      simp only [bind_pure_apply]
      rw [bind_run_sub_cases]
      try dsimp only
      by_cases h2 : (w.proc (s.calls + 1 + 1)).exitCode = 0
      · rw [if_pos h2]
        simp only [Bool.false_eq_true, if_false, Option.getD_some, H, if_true]
        rfl
      · rw [if_neg h2]
    · rw [if_neg h1]
  · rw [if_neg h0]

theorem bind_exits {α β : Type} {x : M α} {k : α → M β} {w : World}
    (hx : OkOrOne x) (hk : ∀ (a : α) (s1 : PState), ((k a) w s1).1 = Res.exit 1)
    (s : PState) : ((x >>= k) w s).1 = Res.exit 1 := by
  rcases hxs : x w s with ⟨r, s1⟩
  cases r with
  | ok a =>
    rw [bind_ok hxs]
    exact hk a s1
  | exit c =>
    rcases hx w s with ⟨a, ha⟩ | h1
    · rw [hxs] at ha; exact absurd ha (by simp)
    · rw [bind_exit hxs]
      rw [hxs] at h1
      have hc : c = 1 := by simpa using h1
      rw [hc]

theorem noNewW_of_noNew {P : List String → Prop} {α : Type} {m : M α} {w : World}
    (h : NoNew P m) : NoNewW P w m :=
  fun s t ht => h w s t ht

theorem noNewW_bind {P : List String → Prop} {w : World} {α β : Type}
    {x : M α} {f : α → M β} (hx : NoNewW P w x) (hf : ∀ a, NoNewW P w (f a)) :
    NoNewW P w (x >>= f) := by
  intro s t ht
  rcases hxs : x w s with ⟨r, s1⟩
  cases r with
  | ok a =>
    rw [bind_ok hxs] at ht
    rcases hf a s1 t ht with h1 | h2
    · exact hx s t (by rw [hxs]; exact h1)
    · exact Or.inr h2
  | exit c =>
    rw [bind_exit hxs] at ht
    exact hx s t (by rw [hxs]; exact ht)

theorem noNewW_bind_exit {P : List String → Prop} {w : World} {α β : Type}
    {x : M α} {f : α → M β} (hx : NoNewW P w x)
    (hexit : ∀ s, (x w s).1 = Res.exit 1) : NoNewW P w (x >>= f) := by
  intro s t ht
  rcases hxs : x w s with ⟨r, s1⟩
  cases r with
  | ok a =>
    have := hexit s
    rw [hxs] at this
    exact absurd this (by simp)
  | exit c =>
    rw [bind_exit hxs] at ht
    exact hx s t (by rw [hxs]; exact ht)

/-! ## Claim C5: failed authentication verification aborts before creation -/

/-- Claim C5: in every sequencer run against a world whose org listings
never contain the `DevHub` alias (so the verification after the login
attempt necessarily fails), `main` terminates with exit code 1 and no
scratch-environment-creation command (`sf org create scratch`) is ever
launched. -/
theorem claim_C5 (env : String) (review : Bool) (url : String)
    (force preview : Bool) (w : World)
    (H : ∀ k, containsSub (w.proc k).output "DevHub" = false) :
    (main env review url force preview w s0).1 = Res.exit 1 ∧
    (∀ t, t ∈ invokedCmds ((main env review url force preview w s0).2.trace) →
      isCreateScratch t = false) := by
  have hexit : ∀ s, (main env review url force preview w s).1 = Res.exit 1 := by
    intro s
    rw [main]
    simp only [logHeader, logStatus, bind_emit_apply]
    apply bind_exits (okOrOne_git _ _)
    intro _ s1
    simp only [logSuccess, bind_emit_apply]
    apply bind_exits okOrOne_check
    intro _ s2
    rcases hl : login_devhub url force w s2 with ⟨rl, sl⟩
    have h1 := login_devhub_exits url force w s2 H
    rw [hl] at h1
    have h2 : rl = Res.exit 1 := by simpa using h1
    rw [bind_exit (by rw [hl, h2] : login_devhub url force w s2 = (Res.exit 1, sl))]
  have hnn : NoNewW NotCreate w (main env review url force preview) := by
    rw [main]
    apply noNewW_bind (noNewW_of_noNew (noNew_log _ _)); intro _
    apply noNewW_bind (noNewW_of_noNew (noNew_log _ _)); intro _
    apply noNewW_bind (noNewW_of_noNew (noNew_log _ _)); intro _
    apply noNewW_bind (noNewW_of_noNew (noNew_git (main_env env) review
      (by simp [NotCreate, isCreateScratch]) (by simp [NotCreate, isCreateScratch])
      (by simp [NotCreate, isCreateScratch]) (by simp [NotCreate, isCreateScratch])
      (by simp [NotCreate, isCreateScratch]) (by simp [NotCreate, isCreateScratch])))
    intro _
    apply noNewW_bind (noNewW_of_noNew (noNew_log _ _)); intro _
    apply noNewW_bind (noNewW_of_noNew (noNew_check
      (by simp [NotCreate, isCreateScratch])))
    intro _
    apply noNewW_bind_exit
    · exact noNewW_of_noNew (noNew_login url force
        (by simp [NotCreate, isCreateScratch]) (by simp [NotCreate, isCreateScratch]))
    · intro s'
      exact login_devhub_exits url force w s' H
  refine ⟨hexit s0, ?_⟩
  intro t ht
  rcases hnn s0 t ht with h1 | h2
  · exact absurd h1 (by simp [invokedCmds, s0])
  · exact h2

/-- Claim C5 witness: a concrete run against a world whose listings show
no `DevHub` — the sequencer exits with code 1 and the trace contains no
scratch-creation command. -/
theorem claim_C5_witness :
    (main "FE Hello" false "https://login.salesforce.com" false false failWorld s0).1
      = Res.exit 1 := by
  have h := claim_C5 "FE Hello" false "https://login.salesforce.com" false false
    failWorld (fun k => (by decide : containsSub "boom" "DevHub" = false))
  exact h.1

theorem M_bind_assoc {α β γ : Type} (x : M α) (f : α → M β) (g : β → M γ) :
    (x >>= f) >>= g = x >>= fun a => f a >>= g := by
  funext w s
  show M.bind (M.bind x f) g w s = M.bind x (fun a => M.bind (f a) g) w s
  simp only [M.bind]
  rcases x w s with ⟨r, s1⟩
  cases r with
  | ok a => rfl
  | exit c => rfl

theorem M_pure_eq {α : Type} (a : α) : M.pure a = (pure a : M α) := rfl

/-! ## Claims C6 and C7: no-op and abort paths of the pull handlers -/

theorem bind_fsExists_apply {β : Type} (p : String) (f : Bool → M β)
    (w : World) (s : PState) : (fsExists p >>= f) w s = f (w.fs p) w s := rfl

theorem ask_of_nonblank {raw : String} (dflt : Option String)
    (h : pyStrip raw ≠ "") : ask raw dflt = pyStrip raw := by
  rw [ask, if_neg h]

theorem choose_many_blank (options : List String) (raw : String)
    (h : pyStrip raw = "") : choose_many options raw = ([], []) := by
  simp [choose_many, h]

theorem warningCount_append (a b : List Event) :
    warningCount (a ++ b) = warningCount a + warningCount b := by
  simp [warningCount, List.filter_append]

/-- Claim C6: in the manifest flow, when the operator chooses `1` and
supplies a (non-blank) path whose resolved file does not exist, the
handler terminates with exit code 1 and launches no subprocess at all; in
particular the retrieval command is never invoked. -/
theorem claim_C6 (root org : String) (ic : Bool) (choiceRaw mpRaw : String)
    (w : World) (s : PState) (hc : pyStrip choiceRaw = "1")
    (hmp : pyStrip mpRaw ≠ "")
    (hfs : w.fs (joinPath root (pyStrip mpRaw)) = false) :
    (pull_by_manifest root org ic choiceRaw mpRaw w s).1 = Res.exit 1 ∧
    (∀ t, t ∈ invokedCmds ((pull_by_manifest root org ic choiceRaw mpRaw w s).2.trace) →
      t ∈ invokedCmds s.trace) := by
  have key : pull_by_manifest root org ic choiceRaw mpRaw w s =
      (Res.exit 1,
       { trace := s.trace ++
           [Event.log "INFO" "Choose one:",
            Event.printed "  1) Use existing package.xml",
            Event.printed "  2) Generate package.xml from org, then retrieve",
            Event.log "ERROR"
              ("package.xml not found at: " ++ joinPath root (pyStrip mpRaw))],
         calls := s.calls }) := by
    rw [pull_by_manifest]
    simp only [logInfo, printLine, logError, bind_emit_apply]
    try dsimp only
    rw [if_pos hc]
    simp only [bind_fsExists_apply]
    rw [ask_of_nonblank _ hmp]
    rw [hfs]
    rw [if_pos rfl]
    simp only [logError, bind_emit_apply, sysExit]
    simp [List.append_assoc]
  rw [key]
  constructor
  · rfl
  · intro t ht
    simp only [invokedCmds_append] at ht
    simpa [invokedCmds] using ht

/-- Claim C6 witness: concrete instance with a world whose file system is
empty. -/
theorem claim_C6_witness :
    (pull_by_manifest "repo" "org1" false "1" "missing.xml"
      (World.mk (fun _ => SubprocResult.mk 0 "") (fun _ => false)) s0).1
      = Res.exit 1 :=
  (claim_C6 "repo" "org1" false "1" "missing.xml"
    (World.mk (fun _ => SubprocResult.mk 0 "") (fun _ => false)) s0
    (by decide) (by decide) rfl).1

/-- Claim C7: in the pull-by-type flow, when the catalog selection input
and the free-form extra input both strip to blank (so the combined
selection is empty), the handler returns normally, launches zero
subprocesses, and logs exactly one warning. -/
theorem claim_C7 (root org : String) (ic : Bool) (selRaw extraRaw : String)
    (w : World) (s : PState) (hsel : pyStrip selRaw = "")
    (hex : pyStrip extraRaw = "") :
    (pull_by_types root org ic selRaw extraRaw w s).1 = Res.ok () ∧
    invokedCmds ((pull_by_types root org ic selRaw extraRaw w s).2.trace)
      = invokedCmds s.trace ∧
    warningCount ((pull_by_types root org ic selRaw extraRaw w s).2.trace)
      = warningCount s.trace + 1 := by
  have key : pull_by_types root org ic selRaw extraRaw w s =
      (Res.ok (),
       { trace := s.trace ++
           [Event.printed "", Event.log "INFO" "Select metadata types to retrieve:",
            Event.menuShown CURATED_TYPES, Event.printed "", Event.printed "",
            Event.log "WARNING" "No types selected. Nothing to do."],
         calls := s.calls }) := by
    rw [pull_by_types, choose_many_m]
    simp only [printLine, logInfo, logWarning, bind_emit_apply]
    rw [choose_many_blank CURATED_TYPES selRaw hsel]
    try dsimp only
    simp only [emitWarns, bind_pure_apply, bind_emit_apply]
    rw [ask, if_pos hex]
    try dsimp only
    simp only [Option.getD_none]
    have hps : pyStrip "" = "" := rfl
    rw [hps]
    rw [if_neg (by simp)]
    simp only [List.append_nil]
    simp only [M_bind_assoc, M_pure_eq, bind_emit_apply, bind_pure_apply, if_true]
    simp only [logWarning, emit_apply]
    simp [List.append_assoc]
  rw [key]
  refine ⟨rfl, ?_, ?_⟩
  · simp only [invokedCmds_append]
    simp [invokedCmds]
  · rw [warningCount_append]
    have : warningCount
        [Event.printed "", Event.log "INFO" "Select metadata types to retrieve:",
         Event.menuShown CURATED_TYPES, Event.printed "", Event.printed "",
         Event.log "WARNING" "No types selected. Nothing to do."] = 1 := by decide
    rw [this]

/-- Claim C7 witness: concrete instance with blank inputs. -/
theorem claim_C7_witness :
    (pull_by_types "repo" "org1" false "" " " goodWorld s0).1 = Res.ok () :=
  (claim_C7 "repo" "org1" false "" " " goodWorld s0 rfl rfl).1

/-! ## Claim C9: shape of every retrieval command -/

theorem noNew_printedE {P : List String → Prop} (t : String) :
    NoNew P (emit (Event.printed t)) := noNew_emit _ rfl

theorem noNew_menuE {P : List String → Prop} (o : List String) :
    NoNew P (emit (Event.menuShown o)) := noNew_emit _ rfl

theorem noNew_madeDirE {P : List String → Prop} (p : String) :
    NoNew P (emit (Event.madeDir p)) := noNew_emit _ rfl

theorem noNew_emitWarns {P : List String → Prop} :
    ∀ l : List Warn, NoNew P (emitWarns l) := by
  intro l
  induction l with
  | nil => exact noNew_pure _
  | cons wn rest ih => exact noNew_bind (noNew_log _ _) (fun _ => ih)

theorem noNew_choose_many_m {P : List String → Prop}
    (prompt : String) (opts : List String) (raw : String) :
    NoNew P (choose_many_m prompt opts raw) := by
  rw [choose_many_m]
  apply noNew_bind (noNew_printedE _); intro _
  apply noNew_bind (noNew_log _ _); intro _
  apply noNew_bind (noNew_menuE _); intro _
  apply noNew_bind (noNew_printedE _); intro _
  apply noNew_bind (noNew_emitWarns _); intro _
  exact noNew_pure _

theorem noNew_pull_everything {P : List String → Prop} (root org : String) (ic : Bool)
    (h : P (retrieveStart org ++ conflictsSuffix ic)) :
    NoNew P (pull_everything root org ic) := by
  rw [pull_everything]
  apply noNew_bind (noNew_run _ _ h); intro _
  exact noNew_pure _

theorem noNew_pull_by_types {P : List String → Prop} (root org : String) (ic : Bool)
    (selRaw extraRaw : String)
    (h : ∀ types, P (retrieveStart org ++ metadataFlags types ++ conflictsSuffix ic)) :
    NoNew P (pull_by_types root org ic selRaw extraRaw) := by
  rw [pull_by_types]
  apply noNew_bind (noNew_choose_many_m _ _ _); intro picks
  apply noNew_bind (noNew_printedE _); intro _
  apply noNew_ite
  · exact noNew_log _ _
  · apply noNew_bind (noNew_run _ _ (h _)); intro _
    exact noNew_pure _

theorem noNew_pull_by_paths {P : List String → Prop} (root org : String) (ic : Bool)
    (pathsRaw : String)
    (h : ∀ paths, P (retrieveStart org ++ sourceDirFlags paths ++ conflictsSuffix ic)) :
    NoNew P (pull_by_paths root org ic pathsRaw) := by
  rw [pull_by_paths]
  apply noNew_bind (noNew_log _ _); intro _
  apply noNew_bind (noNew_log _ _); intro _
  apply noNew_bind (noNew_log _ _); intro _
  apply noNew_bind (noNew_log _ _); intro _
  apply noNew_bind (noNew_log _ _); intro _
  apply noNew_bind (noNew_printedE _); intro _
  apply noNew_ite
  · exact noNew_log _ _
  · apply noNew_bind (noNew_run _ _ (h _)); intro _
    exact noNew_pure _

theorem noNew_manifestRetrieve {P : List String → Prop} (root org : String)
    (ic : Bool) (mpath : String)
    (h : P (retrieveStart org ++ ["--manifest", mpath] ++ conflictsSuffix ic)) :
    NoNew P (manifestRetrieve root org ic mpath) := by
  rw [manifestRetrieve]
  apply noNew_bind (noNew_run _ _ h); intro _
  exact noNew_pure _

theorem noNew_pull_by_manifest {P : List String → Prop} (root org : String)
    (ic : Bool) (choiceRaw mpRaw : String)
    (hgen : P ["sf", "project", "generate", "manifest", "--from-org", org,
      "--output-dir", joinPath root "manifest"])
    (hm : ∀ m, P (retrieveStart org ++ ["--manifest", m] ++ conflictsSuffix ic)) :
    NoNew P (pull_by_manifest root org ic choiceRaw mpRaw) := by
  rw [pull_by_manifest]
  apply noNew_bind (noNew_log _ _); intro _
  apply noNew_bind (noNew_printedE _); intro _
  apply noNew_bind (noNew_printedE _); intro _
  apply noNew_ite
  · apply noNew_bind (noNew_fsExists _); intro dfltEx
    apply noNew_bind (noNew_fsExists _); intro ex
    apply noNew_ite
    · apply noNew_bind (noNew_log _ _); intro _
      exact noNew_sysExit _
    · exact noNew_manifestRetrieve _ _ _ _ (hm _)
  · apply noNew_ite
    · apply noNew_bind (noNew_madeDirE _); intro _
      apply noNew_bind (noNew_run _ _ hgen); intro _
      apply noNew_bind (noNew_fsExists _); intro ex
      apply noNew_ite
      · apply noNew_bind (noNew_log _ _); intro _
        exact noNew_sysExit _
      · exact noNew_manifestRetrieve _ _ _ _ (hm _)
    · exact noNew_log _ _

/-- Claim C9: every retrieval command launched by any of the four pull
handlers begins with the fixed tokens
`sf project retrieve start --target-org <org>`, continues with one filter
flag pair per selected item — `--metadata <type>:*`, `--source-dir <path>`,
or a single `--manifest <file>` — and carries the trailing
`--ignore-conflicts` token exactly when the conflict toggle is set. -/
theorem claim_C9 :
    (∀ (root org : String) (ic : Bool) (w : World) (s : PState) (t : List String),
      t ∈ retrieveCmds ((pull_everything root org ic w s).2.trace) →
      t ∈ retrieveCmds s.trace ∨ t = retrieveStart org ++ conflictsSuffix ic) ∧
    (∀ (root org : String) (ic : Bool) (selRaw extraRaw : String)
      (w : World) (s : PState) (t : List String),
      t ∈ retrieveCmds ((pull_by_types root org ic selRaw extraRaw w s).2.trace) →
      t ∈ retrieveCmds s.trace ∨
        ∃ sel, t = retrieveStart org ++ metadataFlags sel ++ conflictsSuffix ic) ∧
    (∀ (root org : String) (ic : Bool) (pathsRaw : String)
      (w : World) (s : PState) (t : List String),
      t ∈ retrieveCmds ((pull_by_paths root org ic pathsRaw w s).2.trace) →
      t ∈ retrieveCmds s.trace ∨
        ∃ sel, t = retrieveStart org ++ sourceDirFlags sel ++ conflictsSuffix ic) ∧
    (∀ (root org : String) (ic : Bool) (choiceRaw mpRaw : String)
      (w : World) (s : PState) (t : List String),
      t ∈ retrieveCmds ((pull_by_manifest root org ic choiceRaw mpRaw w s).2.trace) →
      t ∈ retrieveCmds s.trace ∨
        ∃ m, t = retrieveStart org ++ ["--manifest", m] ++ conflictsSuffix ic) := by
  refine ⟨?_, ?_, ?_, ?_⟩
  · intro root org ic w s t ht
    rw [retrieveCmds, List.mem_filter] at ht
    obtain ⟨hmem, hret⟩ := ht
    rcases @noNew_pull_everything
        (fun u => isRetrieveCmd u = true → u = retrieveStart org ++ conflictsSuffix ic)
        root org ic (fun _ => rfl) w s t hmem with h1 | h2
    · exact Or.inl (by rw [retrieveCmds, List.mem_filter]; exact ⟨h1, hret⟩)
    · exact Or.inr (h2 hret)
  · intro root org ic selRaw extraRaw w s t ht
    rw [retrieveCmds, List.mem_filter] at ht
    obtain ⟨hmem, hret⟩ := ht
    rcases @noNew_pull_by_types
        (fun u => isRetrieveCmd u = true →
          ∃ sel, u = retrieveStart org ++ metadataFlags sel ++ conflictsSuffix ic)
        root org ic selRaw extraRaw (fun types _ => ⟨types, rfl⟩) w s t hmem with h1 | h2
    · exact Or.inl (by rw [retrieveCmds, List.mem_filter]; exact ⟨h1, hret⟩)
    · exact Or.inr (h2 hret)
  · intro root org ic pathsRaw w s t ht
    rw [retrieveCmds, List.mem_filter] at ht
    obtain ⟨hmem, hret⟩ := ht
    rcases @noNew_pull_by_paths
        (fun u => isRetrieveCmd u = true →
          ∃ sel, u = retrieveStart org ++ sourceDirFlags sel ++ conflictsSuffix ic)
        root org ic pathsRaw (fun paths _ => ⟨paths, rfl⟩) w s t hmem with h1 | h2
    · exact Or.inl (by rw [retrieveCmds, List.mem_filter]; exact ⟨h1, hret⟩)
    · exact Or.inr (h2 hret)
  · intro root org ic choiceRaw mpRaw w s t ht
    rw [retrieveCmds, List.mem_filter] at ht
    obtain ⟨hmem, hret⟩ := ht
    rcases @noNew_pull_by_manifest
        (fun u => isRetrieveCmd u = true →
          ∃ m, u = retrieveStart org ++ ["--manifest", m] ++ conflictsSuffix ic)
        root org ic choiceRaw mpRaw
        (fun hg => by simp [isRetrieveCmd] at hg)
        (fun m _ => ⟨m, rfl⟩) w s t hmem with h1 | h2
    · exact Or.inl (by rw [retrieveCmds, List.mem_filter]; exact ⟨h1, hret⟩)
    · exact Or.inr (h2 hret)

/-- Claim C9 witness: the single retrieval command of a concrete
successful `pull_everything` run has exactly the prescribed shape. -/
theorem claim_C9_witness :
    ["sf", "project", "retrieve", "start", "--target-org", "org1"]
        ∈ retrieveCmds s0.trace ∨
      ["sf", "project", "retrieve", "start", "--target-org", "org1"]
        = retrieveStart "org1" ++ conflictsSuffix false :=
  claim_C9.1 "repo" "org1" false goodWorld s0
    ["sf", "project", "retrieve", "start", "--target-org", "org1"] (by decide)
